import Mathlib

set_option maxRecDepth 100000

/-!
Verification of the authentication core of a small server-rendered web
application (the TypeScript file server.ts).  The source is shallowly
embedded:

* JS strings are Lean strings; String.prototype.split with a one-character
  separator is jsSplit; a destructured component that may be undefined is an
  Option.
* crypto.pbkdf2Sync(p, s, 1000, 64, "sha512") is an uninterpreted
  deterministic parameter kdf : String → String → List (Fin 256) (a byte
  list); Buffer.prototype.toString("hex") is hexEncode.
* crypto.randomBytes results and Date.now() enter as explicit parameters.
* The SQLite tables users and sessions are lists of rows inside a DB
  structure; INSERT / DELETE / SELECT act on those lists; timestamps are
  milliseconds since the epoch (Int), matching the Date round-trip through
  ISO 8601 text stored in the expires_at column.
* A thrown JS exception is an error value of Except JsError.
-/

/-- A thrown JS exception: TypeError (for example from pbkdf2Sync when the
password argument is null/undefined), URIError (from decodeURIComponent), or
an SQLite constraint error surfaced by node:sqlite. -/
inductive JsError where
  | typeError (msg : String)
  | uriError (msg : String)
  | sqliteError (msg : String)
deriving DecidableEq

/-- JS String.prototype.split with a single-character separator, acting on
char lists.  "".split(c) is [""], and separators at the ends produce empty
segments, as in JS. -/
def splitList (sep : Char) : List Char → List (List Char)
  | [] => [[]]
  | c :: cs =>
    if c = sep then [] :: splitList sep cs
    else
      match splitList sep cs with
      | [] => [[c]]
      | h :: t => (c :: h) :: t

/-- JS String.prototype.split with a single-character separator. -/
def jsSplit (sep : Char) (s : String) : List String :=
  (splitList sep s.data).map List.asString

/-- Lower-case hex digit for a value below 16 (Buffer.toString("hex")):
values 0 to 9 map to the digit characters, 10 to 15 to the letters a to f. -/
def hexDigitChar (n : Nat) : Char :=
  if n < 10 then Char.ofNat (48 + n) else Char.ofNat (87 + n)

/-- The two hex digits of one byte. -/
def hexByte (b : Fin 256) : List Char :=
  [hexDigitChar (b.val / 16), hexDigitChar (b.val % 16)]

/-- Hex encoding of a byte list, as a char list. -/
def hexEncodeList : List (Fin 256) → List Char
  | [] => []
  | b :: bs => hexByte b ++ hexEncodeList bs

/-- Buffer.prototype.toString("hex"): lower-case hex encoding of a byte
list. -/
def hexEncode (bs : List (Fin 256)) : String :=
  (hexEncodeList bs).asString

/-- hashPassword from server.ts on an actual password string: the fresh
random salt enters as the byte-list parameter saltBytes (randomBytes(16)),
and the derivation pbkdf2Sync(password, salt, 1000, 64, "sha512") is the
parameter kdf.  Returns hex(salt) ++ ":" ++ hex(kdf password hex(salt)). -/
def hashPasswordStr (kdf : String → String → List (Fin 256))
    (saltBytes : List (Fin 256)) (password : String) : String :=
  let salt := hexEncode saltBytes
  let hash := hexEncode (kdf password salt)
  salt ++ ":" ++ hash

/-- hashPassword as called by the controllers: the password comes from
URLSearchParams.get and may be null (none), in which case pbkdf2Sync throws
a TypeError. -/
def hashPassword (kdf : String → String → List (Fin 256))
    (saltBytes : List (Fin 256)) : Option String → Except JsError String
  | none => .error (.typeError "ERR_INVALID_ARG_TYPE")
  | some p => .ok (hashPasswordStr kdf saltBytes p)

/-- verifyPassword from server.ts.  The stored string is split on every ':'
(JS split); the destructuring takes the first segment as the salt and the
second (undefined when missing) as the hash; a null/undefined password makes
pbkdf2Sync throw; the final comparison hash === verifyHash is false when
hash is undefined. -/
def verifyPassword (kdf : String → String → List (Fin 256))
    (password? : Option String) (storedHash : String) : Except JsError Bool :=
  let parts := jsSplit ':' storedHash
  let salt := parts.headD ""
  let hash := parts[1]?
  match password? with
  | none => .error (.typeError "ERR_INVALID_ARG_TYPE")
  | some password =>
    let verifyHash := hexEncode (kdf password salt)
    .ok (match hash with
         | none => false
         | some h => h == verifyHash)

/-- A concrete stand-in derivation function used to evaluate the model at
specific inputs: the bytes of password ++ salt. -/
def cKdf (p s : String) : List (Fin 256) :=
  (p ++ s).data.map (fun c => ⟨c.toNat % 256, Nat.mod_lt _ (by omega)⟩)

/-- A concrete derivation function with 64-byte output (the keylen-64
instance used to evaluate length statements). -/
def cKdf64 (p s : String) : List (Fin 256) :=
  List.replicate 64 ⟨(p.length + s.length) % 256, Nat.mod_lt _ (by omega)⟩

/-! ### Splitting lemmas -/

theorem splitList_ne_nil (sep : Char) (l : List Char) : splitList sep l ≠ [] := by
  induction l with
  | nil => simp [splitList]
  | cons c cs ih =>
    simp only [splitList]
    split
    · simp
    · cases h : splitList sep cs with
      | nil => simp
      | cons h t => simp

theorem splitList_of_not_mem (sep : Char) (l : List Char) (h : sep ∉ l) :
    splitList sep l = [l] := by
  induction l with
  | nil => rfl
  | cons c cs ih =>
    simp only [List.mem_cons, not_or] at h
    have hc : ¬c = sep := fun hh => h.1 hh.symm
    simp only [splitList, if_neg hc, ih h.2]

theorem splitList_append_sep (sep : Char) (a b : List Char) (ha : sep ∉ a) :
    splitList sep (a ++ sep :: b) = a :: splitList sep b := by
  induction a with
  | nil => simp [splitList]
  | cons c cs ih =>
    simp only [List.mem_cons, not_or] at ha
    have hc : ¬c = sep := fun hh => ha.1 hh.symm
    simp only [List.cons_append, splitList, if_neg hc, List.append_eq, ih ha.2]

theorem dataAsString (s : String) : s.data.asString = s := rfl

theorem asStringData (l : List Char) : l.asString.data = l := rfl

theorem jsSplit_of_not_mem (sep : Char) (s : String) (h : sep ∉ s.data) :
    jsSplit sep s = [s] := by
  simp [jsSplit, splitList_of_not_mem sep s.data h, dataAsString]

theorem jsSplit_append_sep (sep : Char) (mid s t : String) (hmid : mid.data = [sep])
    (hs : sep ∉ s.data) (ht : sep ∉ t.data) :
    jsSplit sep (s ++ mid ++ t) = [s, t] := by
  have hdata : (s ++ mid ++ t).data = s.data ++ sep :: t.data := by
    simp [String.data_append, hmid]
  simp [jsSplit, hdata, splitList_append_sep sep s.data t.data hs,
    splitList_of_not_mem sep t.data ht, dataAsString]

/-! ### Hex encoding lemmas -/

theorem hexByte_no_colon : ∀ b : Fin 256, ':' ∉ hexByte b := by decide

theorem hexEncodeList_no_colon (bs : List (Fin 256)) : ':' ∉ hexEncodeList bs := by
  induction bs with
  | nil => simp [hexEncodeList]
  | cons b tl ih =>
    simp only [hexEncodeList, List.mem_append, not_or]
    exact ⟨hexByte_no_colon b, ih⟩

theorem hexEncode_no_colon (bs : List (Fin 256)) : ':' ∉ (hexEncode bs).data :=
  hexEncodeList_no_colon bs

theorem hexEncodeList_length (bs : List (Fin 256)) :
    (hexEncodeList bs).length = 2 * bs.length := by
  induction bs with
  | nil => rfl
  | cons b tl ih => simp [hexEncodeList, hexByte, ih]; omega

theorem hexDigitChar_injOn : ∀ m n : Fin 16,
    hexDigitChar m.val = hexDigitChar n.val → m = n := by decide

theorem hexByte_inj : ∀ b c : Fin 256, hexByte b = hexByte c → b = c := by
  intro b c h
  simp only [hexByte, List.cons.injEq, and_true] at h
  have h1 := hexDigitChar_injOn ⟨b.val / 16, by omega⟩ ⟨c.val / 16, by omega⟩ h.1
  have h2 := hexDigitChar_injOn ⟨b.val % 16, by omega⟩ ⟨c.val % 16, by omega⟩ h.2
  simp only [Fin.mk.injEq] at h1 h2
  have : b.val = c.val := by omega
  exact Fin.ext this

theorem hexEncodeList_inj (a b : List (Fin 256))
    (h : hexEncodeList a = hexEncodeList b) : a = b := by
  induction a generalizing b with
  | nil =>
    cases b with
    | nil => rfl
    | cons y ys => simp [hexEncodeList, hexByte] at h
  | cons x xs ih =>
    cases b with
    | nil => simp [hexEncodeList, hexByte] at h
    | cons y ys =>
      simp only [hexEncodeList, hexByte, List.cons_append, List.nil_append,
        List.cons.injEq] at h
      obtain ⟨h1, h2, h3⟩ := h
      have hb : x = y := hexByte_inj x y (by simp [hexByte, h1, h2])
      have ht : xs = ys := ih ys h3
      rw [hb, ht]

theorem hexEncode_inj (a b : List (Fin 256)) (h : hexEncode a = hexEncode b) :
    a = b :=
  hexEncodeList_inj a b (List.asString_inj.mp h)

/-- Splitting a produced stored hash on ':' recovers the two hex parts. -/
theorem jsSplit_hashPasswordStr (kdf : String → String → List (Fin 256))
    (saltBytes : List (Fin 256)) (p : String) :
    jsSplit ':' (hashPasswordStr kdf saltBytes p) =
      [hexEncode saltBytes, hexEncode (kdf p (hexEncode saltBytes))] := by
  unfold hashPasswordStr
  exact jsSplit_append_sep ':' ":" (hexEncode saltBytes)
    (hexEncode (kdf p (hexEncode saltBytes))) rfl
    (hexEncode_no_colon saltBytes)
    (hexEncode_no_colon (kdf p (hexEncode saltBytes)))

/-! ### Evaluation forms of verifyPassword -/

/-- verifyPassword on an actual password string, rewritten by the split of the
stored string: the second segment (or undefined) is compared with the hash
re-derived from the first segment. -/
theorem verifyPassword_some (kdf : String → String → List (Fin 256))
    (p stored : String) :
    verifyPassword kdf (some p) stored =
      .ok (match (jsSplit ':' stored)[1]? with
           | none => false
           | some h => h == hexEncode (kdf p ((jsSplit ':' stored).headD ""))) := rfl

theorem verifyPassword_eval (kdf : String → String → List (Fin 256))
    (p stored sHex hHex : String) (h : jsSplit ':' stored = [sHex, hHex]) :
    verifyPassword kdf (some p) stored = .ok (hHex == hexEncode (kdf p sHex)) := by
  rw [verifyPassword_some, h]
  rfl

/-- C1: for every password p, verifyPassword(p, hashPassword(p)) is true (the
key derivation modeled as the deterministic parameter kdf), and for distinct
p1 ≠ p2, verifyPassword(p1, hashPassword(p2)) is false assuming the
derivation is collision-free on those passwords for the fixed salt. -/
theorem hashPassword_verify_correct (kdf : String → String → List (Fin 256))
    (saltBytes : List (Fin 256)) (p1 p2 : String) (_hne : p1 ≠ p2)
    (hcf : kdf p1 (hexEncode saltBytes) ≠ kdf p2 (hexEncode saltBytes)) :
    verifyPassword kdf (some p1) (hashPasswordStr kdf saltBytes p1) = .ok true ∧
    verifyPassword kdf (some p1) (hashPasswordStr kdf saltBytes p2) = .ok false := by
  constructor
  · rw [verifyPassword_eval kdf p1 _ _ _ (jsSplit_hashPasswordStr kdf saltBytes p1)]
    simp
  · rw [verifyPassword_eval kdf p1 _ _ _ (jsSplit_hashPasswordStr kdf saltBytes p2)]
    have hne2 : hexEncode (kdf p2 (hexEncode saltBytes)) ≠
        hexEncode (kdf p1 (hexEncode saltBytes)) :=
      fun h => hcf (hexEncode_inj _ _ h).symm
    simp only [Except.ok.injEq]
    exact beq_eq_false_iff_ne.mpr hne2

/-- C1 witness: concrete round trip and rejection at the sample derivation. -/
theorem hashPassword_verify_correct_witness :
    verifyPassword cKdf (some "a") (hashPasswordStr cKdf [] "a") = .ok true ∧
    verifyPassword cKdf (some "a") (hashPasswordStr cKdf [] "b") = .ok false :=
  hashPassword_verify_correct cKdf [] "a" "b" (by decide) (by decide)

/-- C4 counterexample: a stored string with three ':'-separated parts (hence
malformed in the sense of the claim) is nevertheless accepted when its first
two segments form a valid salt:hash pair — the trailing part is ignored, so
the claim that a wrong part count always verifies to false is refuted. -/
theorem verifyPassword_extra_parts_accepted :
    (jsSplit ':' "00:70773030:x").length = 3 ∧
    verifyPassword cKdf (some "pw") "00:70773030:x" = .ok true := by
  constructor
  · decide
  · rfl

/-- C4 amended: verifyPassword on an actual password string never throws; a
stored string with no ':' (one split segment) verifies to false; a stored
string with at least two segments is compared using only the first segment as
the salt and the second as the hash, ignoring any trailing segments. -/
theorem verifyPassword_fails_closed (kdf : String → String → List (Fin 256))
    (p stored : String) :
    (∃ b, verifyPassword kdf (some p) stored = .ok b) ∧
    ((jsSplit ':' stored).length = 1 → verifyPassword kdf (some p) stored = .ok false) ∧
    (∀ s1 s2 rest, jsSplit ':' stored = s1 :: s2 :: rest →
      verifyPassword kdf (some p) stored = .ok (s2 == hexEncode (kdf p s1))) := by
  refine ⟨⟨_, verifyPassword_some kdf p stored⟩, ?_, ?_⟩
  · intro hlen
    obtain ⟨a, ha⟩ := List.length_eq_one.mp hlen
    rw [verifyPassword_some, ha]
    rfl
  · intro s1 s2 rest hparts
    rw [verifyPassword_some, hparts]
    simp

/-- C4 amended witness: no-delimiter rejection and a two-segment acceptance
at concrete inputs. -/
theorem verifyPassword_fails_closed_witness :
    (jsSplit ':' "abc").length = 1 ∧
    verifyPassword cKdf (some "p") "abc" = .ok false ∧
    verifyPassword cKdf (some "pw") "00:70773030" = .ok true := by
  refine ⟨by decide, (verifyPassword_fails_closed cKdf "p" "abc").2.1 (by decide), ?_⟩
  have h := (verifyPassword_fails_closed cKdf "pw" "00:70773030").2.2
    "00" "70773030" [] (by decide)
  exact h.trans (by rfl)

/-! ### Hex-digit character facts -/

/-- The sixteen lower-case hex digit characters (0 to 9 and a to f). -/
def isHexDigit (c : Char) : Bool :=
  (48 ≤ c.toNat ∧ c.toNat ≤ 57) ∨ (97 ≤ c.toNat ∧ c.toNat ≤ 102)

theorem hexByte_isHexDigit : ∀ b : Fin 256, ∀ c ∈ hexByte b, isHexDigit c = true := by
  decide

theorem hexEncodeList_isHexDigit (bs : List (Fin 256)) :
    ∀ c ∈ hexEncodeList bs, isHexDigit c = true := by
  induction bs with
  | nil => simp [hexEncodeList]
  | cons b tl ih =>
    intro c hc
    rcases List.mem_append.mp hc with h | h
    · exact hexByte_isHexDigit b c h
    · exact ih c h

/-- C9: the stored string built by hashPassword is 32 hex characters, one ':'
and 128 hex characters (salt from randomBytes(16), hash from pbkdf2 with
keylen 64); it contains exactly one ':', and verifyPassword's split on ':'
recovers the salt and hash segments exactly. -/
theorem hashPassword_format (kdf : String → String → List (Fin 256))
    (saltBytes : List (Fin 256)) (p : String)
    (hsalt : saltBytes.length = 16)
    (hkdf : (kdf p (hexEncode saltBytes)).length = 64) :
    hashPasswordStr kdf saltBytes p =
      hexEncode saltBytes ++ ":" ++ hexEncode (kdf p (hexEncode saltBytes)) ∧
    (hexEncode saltBytes).length = 32 ∧
    (hexEncode (kdf p (hexEncode saltBytes))).length = 128 ∧
    (∀ c ∈ (hexEncode saltBytes).data, isHexDigit c = true) ∧
    (∀ c ∈ (hexEncode (kdf p (hexEncode saltBytes))).data, isHexDigit c = true) ∧
    (hashPasswordStr kdf saltBytes p).data.count ':' = 1 ∧
    jsSplit ':' (hashPasswordStr kdf saltBytes p) =
      [hexEncode saltBytes, hexEncode (kdf p (hexEncode saltBytes))] := by
  have hdata : (hashPasswordStr kdf saltBytes p).data =
      hexEncodeList saltBytes ++ ':' :: hexEncodeList (kdf p (hexEncode saltBytes)) := by
    simp [hashPasswordStr, hexEncode, String.data_append, asStringData]
  refine ⟨rfl, ?_, ?_, ?_, ?_, ?_, jsSplit_hashPasswordStr kdf saltBytes p⟩
  · show (hexEncodeList saltBytes).asString.length = 32
    rw [List.length_asString, hexEncodeList_length, hsalt]
  · show (hexEncodeList (kdf p (hexEncode saltBytes))).asString.length = 128
    rw [List.length_asString, hexEncodeList_length, hkdf]
  · exact hexEncodeList_isHexDigit saltBytes
  · exact hexEncodeList_isHexDigit (kdf p (hexEncode saltBytes))
  · rw [hdata]
    rw [List.count_append, List.count_cons]
    have h1 : (hexEncodeList saltBytes).count ':' = 0 :=
      List.count_eq_zero.mpr (hexEncodeList_no_colon saltBytes)
    have h2 : (hexEncodeList (kdf p (hexEncode saltBytes))).count ':' = 0 :=
      List.count_eq_zero.mpr (hexEncodeList_no_colon _)
    simp [h1, h2]

/-- A fixed 16-byte salt used to evaluate the model. -/
def cSalt16 : List (Fin 256) := List.replicate 16 ⟨0, by omega⟩

/-- C9 witness: the format statement evaluated at a concrete 16-byte salt and
a concrete 64-byte derivation output. -/
theorem hashPassword_format_witness :
    hashPasswordStr cKdf64 cSalt16 "pw" =
      hexEncode cSalt16 ++ ":" ++ hexEncode (cKdf64 "pw" (hexEncode cSalt16)) ∧
    (hexEncode cSalt16).length = 32 ∧
    (hexEncode (cKdf64 "pw" (hexEncode cSalt16))).length = 128 ∧
    (∀ c ∈ (hexEncode cSalt16).data, isHexDigit c = true) ∧
    (∀ c ∈ (hexEncode (cKdf64 "pw" (hexEncode cSalt16))).data, isHexDigit c = true) ∧
    (hashPasswordStr cKdf64 cSalt16 "pw").data.count ':' = 1 ∧
    jsSplit ':' (hashPasswordStr cKdf64 cSalt16 "pw") =
      [hexEncode cSalt16, hexEncode (cKdf64 "pw" (hexEncode cSalt16))] :=
  hashPassword_format cKdf64 cSalt16 "pw" (by decide) (by decide)

/-! ### Cookie codec -/

/-- JS String.prototype.trim, modeled on the char list: drop whitespace from
both ends. -/
def jsTrim (s : String) : String :=
  (((s.data.dropWhile Char.isWhitespace).reverse.dropWhile
      Char.isWhitespace).reverse).asString

/-- Numeric value of one hex digit (either case), as used by the
percent-escape decoder. -/
def hexVal? (c : Char) : Option Nat :=
  if '0' ≤ c ∧ c ≤ '9' then some (c.toNat - 48)
  else if 'A' ≤ c ∧ c ≤ 'F' then some (c.toNat - 55)
  else if 'a' ≤ c ∧ c ≤ 'f' then some (c.toNat - 87)
  else none

/-- First phase of decodeURIComponent: replace each %XX escape by its byte,
keep other characters; a '%' not followed by two hex digits is a URIError
(none). -/
def percentTokens : List Char → Option (List (Sum Char (Fin 256)))
  | [] => some []
  | '%' :: rest =>
    match rest with
    | c1 :: c2 :: rest' =>
      match hexVal? c1, hexVal? c2 with
      | some h, some l =>
        (percentTokens rest').map
          (fun ts => Sum.inr (⟨(16 * h + l) % 256, Nat.mod_lt _ (by omega)⟩ : Fin 256) :: ts)
      | _, _ => none
    | _ => none
  | c :: rest => (percentTokens rest).map (fun ts => Sum.inl c :: ts)

/-- Second phase of decodeURIComponent: the escaped bytes must form valid
UTF-8 sequences (no overlong forms, no surrogates, limit U+10FFFF); any
violation is a URIError (none).  Unescaped characters pass through. -/
def utf8Decode : List (Sum Char (Fin 256)) → Option (List Char)
  | [] => some []
  | Sum.inl c :: rest => (utf8Decode rest).map (c :: ·)
  | Sum.inr b :: rest =>
    let n := b.val
    if n < 128 then (utf8Decode rest).map (Char.ofNat n :: ·)
    else if 194 ≤ n ∧ n ≤ 223 then
      match rest with
      | Sum.inr b2 :: rest' =>
        if 128 ≤ b2.val ∧ b2.val ≤ 191 then
          (utf8Decode rest').map (Char.ofNat ((n - 192) * 64 + (b2.val - 128)) :: ·)
        else none
      | _ => none
    else if 224 ≤ n ∧ n ≤ 239 then
      match rest with
      | Sum.inr b2 :: Sum.inr b3 :: rest' =>
        if 128 ≤ b2.val ∧ b2.val ≤ 191 ∧ 128 ≤ b3.val ∧ b3.val ≤ 191 then
          let cp := (n - 224) * 4096 + (b2.val - 128) * 64 + (b3.val - 128)
          if 2048 ≤ cp ∧ ¬(55296 ≤ cp ∧ cp ≤ 57343) then
            (utf8Decode rest').map (Char.ofNat cp :: ·)
          else none
        else none
      | _ => none
    else if 240 ≤ n ∧ n ≤ 244 then
      match rest with
      | Sum.inr b2 :: Sum.inr b3 :: Sum.inr b4 :: rest' =>
        if 128 ≤ b2.val ∧ b2.val ≤ 191 ∧ 128 ≤ b3.val ∧ b3.val ≤ 191 ∧
            128 ≤ b4.val ∧ b4.val ≤ 191 then
          let cp := (n - 240) * 262144 + (b2.val - 128) * 4096 +
            (b3.val - 128) * 64 + (b4.val - 128)
          if 65536 ≤ cp ∧ cp ≤ 1114111 then
            (utf8Decode rest').map (Char.ofNat cp :: ·)
          else none
        else none
      | _ => none
    else none

/-- JS decodeURIComponent on a string argument. -/
def decodeURIComponentStr (s : String) : Except JsError String :=
  match percentTokens s.data with
  | none => .error (.uriError "URI malformed")
  | some ts =>
    match utf8Decode ts with
    | none => .error (.uriError "URI malformed")
    | some cs => .ok cs.asString

/-- decodeURIComponent as called in parseCookies: the value slot of the
destructuring may be undefined (none), which JS coerces to the string
"undefined" before decoding. -/
def decodeURIComponentJS : Option String → Except JsError String
  | none => decodeURIComponentStr "undefined"
  | some s => decodeURIComponentStr s

/-- JS object property write cookies[name] = value: overwrite in place when
the key exists, append otherwise. -/
def recordSet (r : List (String × String)) (k v : String) :
    List (String × String) :=
  if r.any (fun p => p.1 == k) then
    r.map (fun p => if p.1 == k then (k, v) else p)
  else r ++ [(k, v)]

/-- JS object property read. -/
def recordGet (r : List (String × String)) (k : String) : Option String :=
  (r.find? (fun p => p.1 == k)).map (·.2)

/-- The body of the reduce callback in parseCookies: trim the pair, split on
every '=', take the first segment as the name and the second (or undefined)
as the value, URL-decode the value, store it. -/
def parseCookiePair (cookies : List (String × String)) (cookie : String) :
    Except JsError (List (String × String)) :=
  let parts := jsSplit '=' (jsTrim cookie)
  let name := parts.headD ""
  let value := parts[1]?
  match decodeURIComponentJS value with
  | .error e => .error e
  | .ok v => .ok (recordSet cookies name v)

/-- parseCookies from server.ts: an absent or empty (falsy) header is the
empty mapping; otherwise split the header on ';' and reduce with
parseCookiePair. -/
def parseCookies : Option String → Except JsError (List (String × String))
  | none => .ok []
  | some h => if h = "" then .ok [] else (jsSplit ';' h).foldlM parseCookiePair []

/-- C3 counterexample: a cookie pair without '=' is not skipped — it produces
an entry whose value is the string "undefined" (decodeURIComponent of the
undefined destructuring slot) — and a pair with two '=' keeps only the
segment between the first and second '=', not the remainder after the first
'='. -/
theorem parseCookies_not_as_claimed :
    parseCookies (some "foo") = .ok [("foo", "undefined")] ∧
    (([("foo", "undefined")] : List (String × String)) ≠ []) ∧
    parseCookies (some "x=1=2") = .ok [("x", "1")] ∧
    (("1" : String) ≠ "1=2") := by
  exact ⟨rfl, by decide, rfl, by decide⟩

/-- C3 amended: parseCookies splits the header on ';', trims each pair,
splits each pair on every '=' and keeps the first segment as the name and the
second as the value, URL-decoding it; a pair containing no '=' produces an
entry mapping the pair to the literal string "undefined"; an absent header
yields the empty mapping; parse of "a=1; b=two%20words" still yields
a ↦ "1", b ↦ "two words". -/
theorem parseCookies_spec (s : String)
    (h1 : ';' ∉ s.data) (h2 : '=' ∉ s.data) (h3 : s ≠ "") (h4 : jsTrim s = s) :
    parseCookies none = .ok [] ∧
    parseCookies (some "a=1; b=two%20words") = .ok [("a", "1"), ("b", "two words")] ∧
    parseCookies (some s) = .ok [(s, "undefined")] := by
  refine ⟨rfl, rfl, ?_⟩
  show (if s = "" then Except.ok [] else List.foldlM parseCookiePair [] (jsSplit ';' s)) = _
  rw [if_neg h3, jsSplit_of_not_mem ';' s h1]
  have hpair : parseCookiePair [] s = .ok [(s, "undefined")] := by
    unfold parseCookiePair
    rw [h4, jsSplit_of_not_mem '=' s h2]
    rfl
  simp only [List.foldlM_cons, List.foldlM_nil, hpair]
  rfl

/-- C3 amended witness: the universally quantified no-'=' case evaluated at
the header "bar". -/
theorem parseCookies_spec_witness :
    (';' ∉ ("bar" : String).data) ∧ ('=' ∉ ("bar" : String).data) ∧
    (("bar" : String) ≠ "") ∧ jsTrim "bar" = "bar" ∧
    parseCookies (some "bar") = .ok [("bar", "undefined")] :=
  ⟨by decide, by decide, by decide, rfl,
    (parseCookies_spec "bar" (by decide) (by decide) (by decide) rfl).2.2⟩

/-! ### Data model: the users and sessions tables -/

/-- A row of users(id PK autoincrement, username unique, password).  The
username column is nullable: a registration POST without a username field
binds NULL. -/
structure UserRow where
  id : Nat
  username : Option String
  password : String
deriving DecidableEq

/-- A row of sessions(id PK, user_id FK, expires_at).  The expires_at column
is the timestamp in milliseconds since the epoch (the stored ISO 8601 text
round-trips through new Date). -/
structure SessionRow where
  id : String
  user_id : Nat
  expires_at : Int
deriving DecidableEq

/-- The SQLite database: both tables plus the autoincrement counter. -/
structure DB where
  users : List UserRow
  sessions : List SessionRow
  nextUserId : Nat
deriving DecidableEq

/-- What a handler writes to the response body. -/
inductive Body where
  | page (name title : String) (error : Option String) (user : Option Nat)
  | text (s : String)
  | empty
deriving DecidableEq

/-- A Set-Cookie header for the sessionId cookie: its value and its Expires
attribute in epoch milliseconds (all session cookies carry HttpOnly and
Path=/). -/
structure SetCookieVal where
  value : String
  expiresMs : Int
deriving DecidableEq

/-- The observable response: status code, Location header, Set-Cookie
header, body. -/
structure Resp where
  status : Nat
  location : Option String
  setCookie : Option SetCookieVal
  body : Body
deriving DecidableEq

/-- The names exported by the template module template.ts. -/
def templateNames : List String := ["template", "home", "login", "register"]

/-- res.render from server.ts: look the page function up in the template
module; a missing export is falsy, producing 404 "Page not found"; otherwise
respond 200 with the rendered page (whose data include the request's
resolved user). -/
def render (ruser : Option Nat) (name title : String) (error : Option String) :
    Resp :=
  if templateNames.contains name then
    ⟨200, none, none, .page name title error ruser⟩
  else
    ⟨404, none, none, .text "Page not found"⟩

/-- SELECT * FROM users WHERE username = ?: a NULL binding matches no row;
otherwise the first row with that username. -/
def lookupUser (db : DB) : Option String → Option UserRow
  | none => none
  | some u => db.users.find? (fun r => r.username == some u)

/-- SELECT * FROM users WHERE id = ?. -/
def getUserById (db : DB) (uid : Nat) : Option UserRow :=
  db.users.find? (fun r => r.id == uid)

/-- SELECT * FROM sessions WHERE id = ?. -/
def findSession (db : DB) (sid : String) : Option SessionRow :=
  db.sessions.find? (fun s => s.id == sid)

/-- DELETE FROM sessions WHERE id = ?. -/
def deleteSession (db : DB) (sid : String) : DB :=
  { db with sessions := db.sessions.filter (fun s => s.id != sid) }

/-- The node:sqlite error message for a duplicate username. -/
def uniqueViolationMsg : String := "UNIQUE constraint failed: users.username"

/-- INSERT INTO users (username, password) VALUES (?, ?): fails on the
UNIQUE constraint when the (non-NULL) username is already present, and
returns lastInsertRowid on success. -/
def insertUser (db : DB) (username? : Option String) (hashed : String) :
    Except String (DB × Nat) :=
  match username? with
  | some u =>
    if db.users.any (fun r => r.username == some u) then
      .error uniqueViolationMsg
    else
      .ok ({ db with
               users := db.users ++ [⟨db.nextUserId, some u, hashed⟩]
               nextUserId := db.nextUserId + 1 }, db.nextUserId)
  | none =>
    .ok ({ db with
             users := db.users ++ [⟨db.nextUserId, none, hashed⟩]
             nextUserId := db.nextUserId + 1 }, db.nextUserId)

/-- INSERT INTO sessions (id, user_id, expires_at) VALUES (?, ?, ?). -/
def insertSession (db : DB) (sid : String) (uid : Nat) (expiresAt : Int) : DB :=
  { db with sessions := db.sessions ++ [⟨sid, uid, expiresAt⟩] }

/-! ### Session management -/

/-- getSession from server.ts.  A missing or empty (falsy) sessionId cookie
resolves to no session; a stored row whose expires_at is strictly before the
current time is deleted (lazy eviction) and resolves to no session. -/
def getSession (db : DB) (cookies : List (String × String)) (now : Int) :
    DB × Option SessionRow :=
  match recordGet cookies "sessionId" with
  | none => (db, none)
  | some sid =>
    if sid = "" then (db, none)
    else
      match findSession db sid with
      | none => (db, none)
      | some s =>
        if s.expires_at < now then (deleteSession db sid, none)
        else (db, some s)

/-- getUserFromSession from server.ts. -/
def getUserFromSession (db : DB) (s : SessionRow) : Option UserRow :=
  getUserById db s.user_id

/-- attachUser from server.ts: resolve the session from the cookie, then its
owning user; if either is missing nothing is attached to the request. -/
def attachUser (db : DB) (cookies : List (String × String)) (now : Int) :
    DB × Option SessionRow × Option UserRow :=
  let (db1, s?) := getSession db cookies now
  match s? with
  | none => (db1, none, none)
  | some s =>
    match getUserFromSession db1 s with
    | none => (db1, none, none)
    | some u => (db1, some s, some u)

/-! ### Controllers -/

/-- The login/registration session TTL: 7 * 24 * 60 * 60 * 1000 ms. -/
def sevenDaysMs : Int := 7 * 24 * 60 * 60 * 1000

/-- The generic login failure message. -/
def invalidCredsMsg : String := "Invalid username or password"

/-- The 302 redirect to / carrying the freshly set session cookie. -/
def sessionRedirect (sid : String) (expiresAt : Int) : Resp :=
  ⟨302, some "/", some ⟨sid, expiresAt⟩, .empty⟩

/-- The POST branch of loginController.  username/password come from
URLSearchParams.get (null when absent); sidNew is the fresh
crypto.randomBytes(16) session id; now is Date.now(); ruser is the identity
resolved by attachUser for this request (it only feeds the rendered page).
A missing user or a failed verification renders the login form with the
generic error; an absent password reaches verifyPassword only when the user
exists, and then pbkdf2Sync throws. -/
def loginPost (kdf : String → String → List (Fin 256)) (sidNew : String)
    (now : Int) (db : DB) (username? password? : Option String)
    (ruser : Option Nat) : Except JsError (DB × Resp) :=
  match lookupUser db username? with
  | none => .ok (db, render ruser "login" "Login Page" (some invalidCredsMsg))
  | some user =>
    match verifyPassword kdf password? user.password with
    | .error e => .error e
    | .ok true =>
      let expiresAt := now + sevenDaysMs
      .ok (insertSession db sidNew user.id expiresAt,
           sessionRedirect sidNew expiresAt)
    | .ok false =>
      .ok (db, render ruser "login" "Login Page" (some invalidCredsMsg))

/-- The POST branch of registerController.  hashPassword runs before the
insert and throws on an absent password; the insert's UNIQUE violation is
caught and rendered with the error message; on success a session is inserted
and the response redirects with the session cookie. -/
def registerPost (kdf : String → String → List (Fin 256))
    (saltBytes : List (Fin 256)) (sidNew : String) (now : Int) (db : DB)
    (username? password? : Option String) (ruser : Option Nat) :
    Except JsError (DB × Resp) :=
  match hashPassword kdf saltBytes password? with
  | .error e => .error e
  | .ok hashed =>
    match insertUser db username? hashed with
    | .error msg => .ok (db, render ruser "register" "Register Page" (some msg))
    | .ok (db1, userId) =>
      let expiresAt := now + sevenDaysMs
      .ok (insertSession db1 sidNew userId expiresAt,
           sessionRedirect sidNew expiresAt)

/-- The cleared session cookie sent by logout: empty value, Expires at the
1970 epoch. -/
def expiredCookie : SetCookieVal := ⟨"", 0⟩

/-- logoutController from server.ts: delete the session row when a (truthy)
sessionId cookie is present, always set the expired cookie and redirect with
302 to /. -/
def logoutController (db : DB) (cookies : List (String × String)) : DB × Resp :=
  let sid? := recordGet cookies "sessionId"
  let db1 :=
    match sid? with
    | some sid => if sid = "" then db else deleteSession db sid
    | none => db
  (db1, ⟨302, some "/", some expiredCookie, .empty⟩)

/-! ### Controller and resolver theorems -/

/-- Deleting a session id removes every row with that id. -/
theorem findSession_deleteSession (db : DB) (sid : String) :
    findSession (deleteSession db sid) sid = none := by
  unfold findSession deleteSession
  rw [List.find?_eq_none]
  intro x hx
  have hmem := (List.mem_filter.mp hx).2
  simp only [bne_iff_ne, ne_eq] at hmem
  simp [hmem]

/-- C2 (code bug): a POST to /register whose body has no password field does
not render a form — registerController calls hashPassword on the null
password, and pbkdf2Sync throws a TypeError, for every database state and
every (present or absent) username field. -/
theorem registerPost_absent_password_throws
    (kdf : String → String → List (Fin 256)) (saltBytes : List (Fin 256))
    (sidNew : String) (now : Int) (db : DB) (username? : Option String)
    (ruser : Option Nat) :
    registerPost kdf saltBytes sidNew now db username? none ruser =
      .error (.typeError "ERR_INVALID_ARG_TYPE") := rfl

/-- C5: a registration POST whose username is already present in the users
table is caught on the UNIQUE violation and re-renders the register form
with the error message, status 200, no redirect, no cookie, and the database
(users and sessions alike) unchanged. -/
theorem registerPost_duplicate_username
    (kdf : String → String → List (Fin 256)) (saltBytes : List (Fin 256))
    (sidNew : String) (now : Int) (db : DB) (u p : String) (ruser : Option Nat)
    (h : db.users.any (fun r => r.username == some u) = true) :
    registerPost kdf saltBytes sidNew now db (some u) (some p) ruser =
      .ok (db, ⟨200, none, none,
        .page "register" "Register Page" (some uniqueViolationMsg) ruser⟩) := by
  have hrender : render ruser "register" "Register Page" (some uniqueViolationMsg) =
      ⟨200, none, none,
        .page "register" "Register Page" (some uniqueViolationMsg) ruser⟩ := rfl
  simp [registerPost, hashPassword, insertUser, h, hrender]

/-- A database with one registered user alice. -/
def cDb : DB := ⟨[⟨1, some "alice", hashPasswordStr cKdf [] "secret"⟩], [], 2⟩

/-- C5 witness: re-registering alice leaves the store unchanged and renders
the register form with the UNIQUE-violation message. -/
theorem registerPost_duplicate_username_witness :
    registerPost cKdf [] "sid1" 0 cDb (some "alice") (some "pw") none =
      .ok (cDb, ⟨200, none, none,
        .page "register" "Register Page" (some uniqueViolationMsg) none⟩) :=
  registerPost_duplicate_username cKdf [] "sid1" 0 cDb "alice" "pw" none (by decide)

/-- C6: every failing login POST — the username matches no user, or it
matches one whose stored hash does not verify against the submitted
password — produces the same response: the re-rendered login form with the
one generic message, status 200, no redirect, no cookie, and no new session
row (the database is returned unchanged).  The two failure causes are
therefore observationally indistinguishable. -/
theorem loginPost_failure_uniform
    (kdf : String → String → List (Fin 256)) (sidNew : String) (now : Int)
    (db : DB) (u p : String) (ruser : Option Nat)
    (h : lookupUser db (some u) = none ∨
      ∃ usr, lookupUser db (some u) = some usr ∧
        verifyPassword kdf (some p) usr.password = .ok false) :
    loginPost kdf sidNew now db (some u) (some p) ruser =
      .ok (db, ⟨200, none, none,
        .page "login" "Login Page" (some invalidCredsMsg) ruser⟩) := by
  have hrender : render ruser "login" "Login Page" (some invalidCredsMsg) =
      ⟨200, none, none,
        .page "login" "Login Page" (some invalidCredsMsg) ruser⟩ := rfl
  rcases h with h | ⟨usr, hu, hv⟩
  · simp [loginPost, h, hrender]
  · simp [loginPost, hu, hv, hrender]

/-- C6 witness: an unknown username and a wrong password for alice produce
literally the same failing response. -/
theorem loginPost_failure_uniform_witness :
    loginPost cKdf "sid1" 0 cDb (some "bob") (some "secret") none =
      .ok (cDb, ⟨200, none, none,
        .page "login" "Login Page" (some invalidCredsMsg) none⟩) ∧
    loginPost cKdf "sid1" 0 cDb (some "alice") (some "wrong") none =
      .ok (cDb, ⟨200, none, none,
        .page "login" "Login Page" (some invalidCredsMsg) none⟩) :=
  ⟨loginPost_failure_uniform cKdf "sid1" 0 cDb "bob" "secret" none (Or.inl rfl),
   loginPost_failure_uniform cKdf "sid1" 0 cDb "alice" "wrong" none
     (Or.inr ⟨⟨1, some "alice", hashPasswordStr cKdf [] "secret"⟩, rfl, rfl⟩)⟩

/-- C7: for a request whose sessionId cookie names a stored session row:
if the row's expiry is strictly in the past the resolver deletes the row and
resolves to no session and no user; and when the row was created with the
7-day TTL (expires_at = created + 7 days) and its user exists, the resolver
yields the session and user at any time up to and including the creation
time, and deletes the row and resolves to none once the expiry instant has
passed. -/
theorem attachUser_expiry (db : DB) (cookies : List (String × String))
    (sid : String) (s : SessionRow) (u : UserRow) (now created : Int)
    (hc : recordGet cookies "sessionId" = some sid) (hne : sid ≠ "")
    (hs : findSession db sid = some s) :
    (s.expires_at < now →
      attachUser db cookies now = (deleteSession db sid, none, none) ∧
      findSession (deleteSession db sid) sid = none) ∧
    (s.expires_at = created + sevenDaysMs →
      getUserById db s.user_id = some u →
      ((now ≤ created → attachUser db cookies now = (db, some s, some u)) ∧
       (created + sevenDaysMs < now →
         attachUser db cookies now = (deleteSession db sid, none, none)))) := by
  constructor
  · intro hexp
    have hgs : getSession db cookies now = (deleteSession db sid, none) := by
      simp [getSession, hc, hne, hs, hexp]
    exact ⟨by simp [attachUser, hgs], findSession_deleteSession db sid⟩
  · intro hexp hu
    constructor
    · intro hnow
      have hlt : ¬s.expires_at < now := by
        rw [hexp]
        simp only [sevenDaysMs]
        omega
      have hgs : getSession db cookies now = (db, some s) := by
        simp [getSession, hc, hne, hs, hlt]
      simp [attachUser, hgs, getUserFromSession, hu]
    · intro hpast
      have hlt : s.expires_at < now := by rw [hexp]; exact hpast
      have hgs : getSession db cookies now = (deleteSession db sid, none) := by
        simp [getSession, hc, hne, hs, hlt]
      simp [attachUser, hgs]

/-- A database with user alice and one session s1 created at time 0 with the
7-day TTL. -/
def cDb3 : DB :=
  ⟨[⟨1, some "alice", "x"⟩], [⟨"s1", 1, 604800000⟩], 2⟩

/-- C7 witness: the 7-day session of cDb3 resolves to alice at its creation
time and is deleted when resolved one millisecond after expiry. -/
theorem attachUser_expiry_witness :
    attachUser cDb3 [("sessionId", "s1")] 0 =
      (cDb3, some ⟨"s1", 1, 604800000⟩, some ⟨1, some "alice", "x"⟩) ∧
    attachUser cDb3 [("sessionId", "s1")] 604800001 =
      (deleteSession cDb3 "s1", none, none) ∧
    findSession (deleteSession cDb3 "s1") "s1" = none := by
  have h := attachUser_expiry cDb3 [("sessionId", "s1")] "s1"
    ⟨"s1", 1, 604800000⟩ ⟨1, some "alice", "x"⟩ 604800001 0
    rfl (by decide) rfl
  have h2 := attachUser_expiry cDb3 [("sessionId", "s1")] "s1"
    ⟨"s1", 1, 604800000⟩ ⟨1, some "alice", "x"⟩ 0 0
    rfl (by decide) rfl
  refine ⟨?_, ?_, ?_⟩
  · exact ((h2.2 (by decide) rfl).1 (by omega))
  · exact (h.1 (by decide)).1
  · exact (h.1 (by decide)).2

/-- C8: every request to /logout gets the 302 redirect to / with the cleared
cookie (empty value, Expires at the 1970 epoch); with no sessionId cookie
the store is untouched; with a (non-empty) sessionId cookie the
corresponding session row is deleted — deleting a nonexistent id is a no-op
of the same form. -/
theorem logoutController_spec (db : DB) (cookies : List (String × String)) :
    (logoutController db cookies).2 = ⟨302, some "/", some expiredCookie, .empty⟩ ∧
    (recordGet cookies "sessionId" = none → (logoutController db cookies).1 = db) ∧
    (∀ sid, recordGet cookies "sessionId" = some sid → sid ≠ "" →
      (logoutController db cookies).1 = deleteSession db sid ∧
      findSession (logoutController db cookies).1 sid = none) := by
  refine ⟨rfl, ?_, ?_⟩
  · intro h
    simp [logoutController, h]
  · intro sid h hne
    constructor
    · simp [logoutController, h, hne]
    · simp [logoutController, h, hne, findSession_deleteSession]

/-- C8 witness: logout with the s1 cookie deletes the row and redirects;
logout with no cookie leaves the store unchanged. -/
theorem logoutController_spec_witness :
    (logoutController cDb3 [("sessionId", "s1")]).2 =
      ⟨302, some "/", some expiredCookie, .empty⟩ ∧
    (logoutController cDb3 [("sessionId", "s1")]).1 = deleteSession cDb3 "s1" ∧
    (logoutController cDb3 []).1 = cDb3 :=
  ⟨(logoutController_spec cDb3 [("sessionId", "s1")]).1,
   ((logoutController_spec cDb3 [("sessionId", "s1")]).2.2 "s1" rfl (by decide)).1,
   (logoutController_spec cDb3 []).2.1 rfl⟩

/-- C10: res.render with a name that is not exported by the template module
responds 404 with body "Page not found" and no rendered page (render reads
nothing and writes nothing besides this response, so the session store is
untouched). -/
theorem render_unknown_name (ruser : Option Nat) (name title : String)
    (error : Option String) (h : templateNames.contains name = false) :
    render ruser name title error = ⟨404, none, none, .text "Page not found"⟩ := by
  have h2 : name ∉ templateNames := by simpa using h
  simp [render, h2]

/-- C10 witness: rendering the unknown page name nope. -/
theorem render_unknown_name_witness :
    render none "nope" "T" none = ⟨404, none, none, .text "Page not found"⟩ :=
  render_unknown_name none "nope" "T" none (by decide)
